import Mathlib

/-!
Verification development for the FastPathology model-execution orchestrator
(`source/logic/ProcessManager.cpp`, `source/logic/Project.cpp`).

The C++ code is shallowly embedded: string-keyed metadata maps become
association lists, fallible C++ operations (`std::stoi`, `std::stof`,
out-of-range vector indexing, failing file loads) become `Except`-valued
functions, and the mutable renderer set of a whole-slide image becomes an
explicit association list threaded through the run.  Machine floats appear
only in the magnification-to-patch-level formula, which is embedded over the
real numbers at the end of the definition section.
-/

deriving instance DecidableEq for Except

namespace FastPathology

/-! ## C++ string / numeric primitives -/

/-- Digits-to-number accumulator used by the `std::stoi` / `std::stof` models. -/
def natOfDigits (ds : List Char) : Nat :=
  ds.foldl (fun a c => a * 10 + (c.toNat - 48)) 0

/-- Optional leading sign, as accepted by `std::stoi` and `std::stof`. -/
def stripSign (cs : List Char) : Int × List Char :=
  match cs with
  | '-' :: t => (-1, t)
  | '+' :: t => (1, t)
  | t => (1, t)

/-- Model of `std::stoi`: skip leading whitespace, optional sign, then a
non-empty digit prefix; anything else (in particular the empty string that a
`std::map` lookup of a missing key yields) raises `std::invalid_argument`,
modelled as `Except.error`. -/
def stoiM (s : String) : Except String Int :=
  let cs := s.data.dropWhile (fun c => c == ' ' || c == '\t' || c == '\n' || c == '\r')
  let sr := stripSign cs
  let ds := sr.2.takeWhile Char.isDigit
  if ds.isEmpty then Except.error "stoi: no conversion"
  else Except.ok (sr.1 * (natOfDigits ds : Int))

/-- Model of `std::stof`, which returns a machine float: the embedding keeps
the parsed decimal exactly, as (signed mantissa, number of fraction digits),
denoting `mantissa / 10 ^ places`.  Optional sign, integer digits and an
optional fractional part; no digits at all raises, modelled as `error`. -/
def stofDec (s : String) : Except String (Int × Nat) :=
  let cs := s.data.dropWhile (fun c => c == ' ' || c == '\t' || c == '\n' || c == '\r')
  let sr := stripSign cs
  let ip := sr.2.takeWhile Char.isDigit
  let rest := sr.2.dropWhile Char.isDigit
  match rest with
  | '.' :: t =>
    let fp := t.takeWhile Char.isDigit
    if ip.isEmpty && fp.isEmpty then Except.error "stof: no conversion"
    else Except.ok (sr.1 * ((natOfDigits ip * 10 ^ fp.length + natOfDigits fp : Nat) : Int), fp.length)
  | _ =>
    if ip.isEmpty then Except.error "stof: no conversion"
    else Except.ok (sr.1 * (natOfDigits ip : Int), 0)

/-- The rational a parsed decimal (mantissa, places) denotes. -/
def decVal (d : Int × Nat) : ℚ := (d.1 : ℚ) / ((10 : ℚ) ^ d.2)

/-- `d` is a non-empty prefix of `s`, by characters. -/
def charsPrefixOf : List Char → List Char → Bool
  | [], _ => true
  | _ :: _, [] => false
  | c :: d, x :: s => if c == x then charsPrefixOf d s else false

/-- Split a character list on each occurrence of the (non-empty) delimiter,
keeping empty segments; `fuel` bounds the recursion by the input length. -/
def splitOnCharsGo (d : List Char) : Nat → List Char → List Char → List (List Char)
  | 0, _, acc => [acc.reverse]
  | Nat.succ fuel, s, acc =>
    match s with
    | [] => [acc.reverse]
    | x :: rest =>
      if charsPrefixOf d s then
        acc.reverse :: splitOnCharsGo d fuel (s.drop d.length) []
      else splitOnCharsGo d fuel rest (x :: acc)

/-- Modelled from the spec: `splitCustom` lives in `source/utils/utilities.h`,
which is not under `src/`; the spec describes it as exact substring splitting
on a delimiter string, embedded here as delimiter-string splitting (empty
segments kept, so `"m.onnx"` split on `"m."` is `["", "onnx"]`). -/
def splitCustom (s delim : String) : List String :=
  if delim.data.isEmpty then [s]
  else (splitOnCharsGo delim.data s.data.length s.data []).map (fun cs => String.mk cs)

/-- Whitespace tokenisation dropping empty tokens. -/
def wsSplitChars : List Char → List Char → List String
  | [], acc => if acc.isEmpty then [] else [String.mk acc.reverse]
  | c :: rest, acc =>
    if c == ' ' || c == '\t' then
      if acc.isEmpty then wsSplitChars rest []
      else String.mk acc.reverse :: wsSplitChars rest []
    else wsSplitChars rest (c :: acc)

/-- Modelled from the spec: FAST's `split` utility used when replaying
attribute lines, splitting on whitespace and discarding empty tokens
(the attribute line grammar is `Attribute <name> <value-tokens...>`). -/
def splitWS (s : String) : List String := wsSplitChars s.data []

def isWSChar (c : Char) : Bool := c == ' ' || c == '\t' || c == '\n' || c == '\r'

/-- FAST's `trim`: strip leading and trailing whitespace. -/
def trimStr (s : String) : String :=
  String.mk (((s.data.dropWhile isWSChar).reverse.dropWhile isWSChar).reverse)

/-- `std::vector::operator[]` with an out-of-range index is undefined
behaviour in C++; the embedding signals it as a failure. -/
def vecGet (xs : List String) (i : Nat) : Except String String :=
  match xs.get? i with
  | some v => Except.ok v
  | none => Except.error "vector index out of range"

/-- `std::string::find(sub) != npos`, i.e. substring containment (for the
non-empty needles the code uses). -/
def containsSub (s sub : String) : Bool := (splitCustom s sub).length != 1

/-- C's `std::round` (round half away from zero) applied to a parsed decimal
`m / 10 ^ k`, computed with integer arithmetic: for non-negative `m` it is
`floor (m / 10 ^ k + 1 / 2)`, and the negative side is mirrored. -/
def cppRoundDec (m : Int) (k : Nat) : Int :=
  if 0 ≤ m then ((2 * m.toNat + 10 ^ k) / (2 * 10 ^ k) : Nat)
  else -(((2 * (-m).toNat + 10 ^ k) / (2 * 10 ^ k) : Nat) : Int)

/-! ## Metadata maps

`std::map<std::string, std::string>` with `operator[]`, whose lookup of a
missing key yields the default-constructed empty string. -/

abbrev Metadata := List (String × String)

/-- `map[k]` value semantics: stored value, or `""` when the key is absent. -/
def mget (m : Metadata) (k : String) : String :=
  match m.find? (fun p => p.1 == k) with
  | some p => p.2
  | none => ""

/-- `map.count(k) != 0`. -/
def mhas (m : Metadata) (k : String) : Bool :=
  (m.find? (fun p => p.1 == k)).isSome

/-! ## Engine resolver (`ProcessManager::selectOptimalInferenceEngine`) -/

/-- Lines 146-158: each directory entry whose filename contains the model name
contributes `"." + splitCustom(file, name + ".").back()` to `acceptedModels`. -/
def acceptedFormats (files : List String) (name : String) : List String :=
  files.filterMap (fun f =>
    if containsSub f name then some ("." ++ (splitCustom f (name ++ ".")).getLastD "")
    else none)

/-- Lines 171-219: the fixed if-else chain selecting the (backend, format)
pair from the accepted model formats and the installed inference engines. -/
def selectOptimalIEcore (acceptedModels : List String) (engines : List String) : String × String :=
  if acceptedModels.contains ".onnx" && engines.contains "TensorRT" then ("TensorRT", "onnx")
  else if acceptedModels.contains ".uff" && engines.contains "TensorRT" then ("TensorRT", "uff")
  else if acceptedModels.contains ".onnx" && engines.contains "OpenVINO" then ("OpenVINO", "onnx")
  else if acceptedModels.contains ".xml" && engines.contains "OpenVINO" then ("OpenVINO", "xml")
  else if acceptedModels.contains ".pb" && engines.contains "TensorFlow" then ("TensorFlow", "pb")
  else ("", "")

/-- `selectOptimalInferenceEngine` proper: derive the accepted format list
from the model directory listing, then run the priority chain. -/
def selectOptimalInferenceEngine (files : List String) (name : String)
    (engines : List String) : String × String :=
  selectOptimalIEcore (acceptedFormats files name) engines

/-- The spec's priority table, highest first: each candidate is
(backend, format extension on disk, format tag returned). -/
def enginePriority : List (String × String × String) :=
  [("TensorRT", ".onnx", "onnx"), ("TensorRT", ".uff", "uff"),
   ("OpenVINO", ".onnx", "onnx"), ("OpenVINO", ".xml", "xml"),
   ("TensorFlow", ".pb", "pb")]

/-- The resolver as the spec states it: the first candidate of the priority
table whose format is available and whose backend is installed, with the
empty sentinel when none matches. -/
def resolveSpec (fmts engines : List String) : String × String :=
  match enginePriority.find? (fun c => fmts.contains c.2.1 && engines.contains c.1) with
  | some c => (c.1, c.2.2)
  | none => ("", "")

/-! ## Low-resolution pyramid-level selection (`pixelClassifier`, lines 314-327) -/

/-- The loop body of lines 315-324: scan levels from finest to coarsest,
producing `i - 1` at the first level `i` whose width or height is at most
twice the model input width or height. -/
def lowResScanGo (w h : Int) : Int → List (Int × Int) → Option Int
  | _, [] => none
  | i, (wi, hi) :: rest =>
    if wi ≤ w * 2 || hi ≤ h * 2 then some (i - 1) else lowResScanGo w h (i + 1) rest

/-- The scan over the per-level (width, height) dimensions list. -/
def lowResScan (dims : List (Int × Int)) (w h : Int) : Option Int :=
  lowResScanGo w h 0 dims

/-- Lines 314-327 as written: the loop's `currLvl` is discarded, because line
327 assigns `levelCount - 1` unconditionally (the guard `if (!breakFlag)` that
would make the assignment conditional is commented out at lines 325-326). -/
def lowResChosenLevel (dims : List (Int × Int)) (w h : Int) : Int :=
  let _currLvlFromLoop := lowResScan dims w h
  (dims.length : Int) - 1

/-- The selection rule as the spec states it: level `i - 1` at the first
level violating the 2x bound, and the coarsest level only when none does. -/
def lowResChosenLevelSpec (dims : List (Int × Int)) (w h : Int) : Int :=
  match lowResScan dims w h with
  | some lvl => lvl
  | none => (dims.length : Int) - 1

/-! ## Magnification-based patch level (`pixelClassifier`, lines 288-296) -/

/-- What the code computes before taking logarithms: the image magnification,
the parsed model magnification, and the rounded level-1 downsample factor —
or the default when `magnification_level` is not set. -/
inductive PatchSpec where
  | default0 : PatchSpec
  | fromMagn (magn : ℚ) (modelMagn : Int) (roundedDownsample : Int) : PatchSpec
deriving DecidableEq

/-- The C cast `(int)x` applied to a real: truncation toward zero. -/
noncomputable def cppIntCast (x : ℝ) : Int := if 0 ≤ x then ⌊x⌋ else ⌈x⌉

/-- Line 290-292: `(int)(log(magn_lvl / stoi(model_magn)) / log(round(stof(downsample))))`,
or the default `0` when the model magnification is unspecified. -/
noncomputable def levelOf : PatchSpec → Int
  | PatchSpec.default0 => 0
  | PatchSpec.fromMagn magn m d =>
    cppIntCast (Real.log ((magn : ℝ) / (m : ℝ)) / Real.log ((d : Int) : ℝ))

/-- The patch-level formula as the spec states it, with the log-ratio rounded
to the nearest integer instead of truncated. -/
noncomputable def levelOfSpecRound : PatchSpec → Int
  | PatchSpec.default0 => 0
  | PatchSpec.fromMagn magn m d =>
    round (Real.log ((magn : ℝ) / (m : ℝ)) / Real.log ((d : Int) : ℝ))

/-! ## Project manifest (`Project::saveProject` / `Project::loadProject`) -/

/-- The collaborator `WholeSlideImage`, reduced to the only field the
manifest logic reads (`get_filename`). -/
structure WholeSlideImage where
  filepath : String
deriving DecidableEq

/-- A flat file system: path to list of text lines. -/
abbrev FS := List (String × List String)

def fsWrite (fs : FS) (p : String) (ls : List String) : FS :=
  (p, ls) :: fs.filter (fun e => e.1 ≠ p)

def fsRead (fs : FS) (p : String) : Option (List String) :=
  match fs.find? (fun e => e.1 == p) with
  | some e => some e.2
  | none => none

/-- Lines 165-181: write `<root>/project.txt`, one `<uid>,<filepath>` line per
image of the project. -/
def saveProject (root : String) (images : List (String × WholeSlideImage)) (fs : FS) : FS :=
  fsWrite fs (root ++ "/project.txt") (images.map (fun p => p.1 ++ "," ++ p.2.filepath))

/-- Line 148-149: uid is the part before the first comma, filepath the part
after the last comma. -/
def parseProjectLine (line : String) : String × String :=
  ((splitCustom line ",").headD "", (splitCustom line ",").getLastD "")

/-- `std::map` insertion semantics for `fileNames[uid] = filename`. -/
def upsert (m : List (String × String)) (k v : String) : List (String × String) :=
  if (m.find? (fun p => p.1 == k)).isSome
  then m.map (fun p => if p.1 == k then (k, v) else p)
  else m ++ [(k, v)]

/-- Lines 134-163: read the manifest and re-create one image per line.  Note
line 141 opens `this->_root_folder + projectFileName` with NO separator, i.e.
`<root>project.txt`, while `saveProject` wrote `<root>/project.txt`. -/
def loadProject (root : String) (fs : FS) : List (String × WholeSlideImage) :=
  let fileNames :=
    match fsRead fs (root ++ "project.txt") with
    | none => []
    | some lines => lines.foldl (fun m line => upsert m (parseProjectLine line).1 (parseProjectLine line).2) []
  fileNames.map (fun p => (p.1, WholeSlideImage.mk p.2))

/-- The load with the path the save used (`<root>/project.txt`), i.e. the
intended behaviour; used to show the missing separator is the whole defect. -/
def loadProjectFixed (root : String) (fs : FS) : List (String × WholeSlideImage) :=
  let fileNames :=
    match fsRead fs (root ++ "/project.txt") with
    | none => []
    | some lines => lines.foldl (fun m line => upsert m (parseProjectLine line).1 (parseProjectLine line).2) []
  fileNames.map (fun p => (p.1, WholeSlideImage.mk p.2))

/-- Lines 60-65 (`Project::getImage`): return the stored image when the name
is a key of `_images`; for an absent name the C++ function falls off the end
of a value-returning function (no return statement), so the total embedding
makes that case an explicit absent value. -/
def getImage (images : List (String × WholeSlideImage)) (name : String) : Option WholeSlideImage :=
  match images.find? (fun p => p.1 == name) with
  | some p => some p.2
  | none => none

/-! ## Result store load (`Project::loadResults`, lines 249-304) -/

/-- One output directory `<results>/<wsi>/<pipeline>/<dataName>/`: its file
names and the content of `attributes.txt` (`none` when the file is missing,
in which case opening it fails). -/
structure DataDir where
  name : String
  files : List String
  attr : Option (List String)
deriving DecidableEq

/-- One pipeline directory `<results>/<wsi>/<pipeline>/`. -/
structure PipeDir where
  name : String
  datas : List DataDir
deriving DecidableEq

/-- `filename.substr(filename.rfind('.'))`: the suffix from the last dot;
with no dot, `rfind` yields `npos` and `substr` throws `std::out_of_range`,
here `none`. -/
def extOf (filename : String) : Option String :=
  let parts := splitCustom filename "."
  if parts.length == 1 then none else some ("." ++ parts.getLastD "")

/-- Lines 262-271: renderer kind from the payload extension; other files
(e.g. `attributes.txt` itself) produce no renderer and are skipped. -/
def rendererKindOf (ext : String) : Option String :=
  if ext == ".tiff" then some "SegmentationRenderer"
  else if ext == ".mhd" then some "SegmentationRenderer"
  else if ext == ".hdf5" then some "HeatmapRenderer"
  else none

/-- Lines 277-297, the attribute-replay loop: stop at the first line whose
first token is not `Attribute`; a line with fewer than 3 tokens throws.
(The C++ indexes `tokens[0]` even when the token list is empty, which is
undefined behaviour on an empty vector; an empty line is modelled as the
loop stopping.)  Returns the attribute (name, value-text) pairs replayed. -/
def replayAttrs : List String → Except String (List (String × String))
  | [] => Except.ok []
  | line :: rest =>
    let l := trimStr line
    let tokens := splitWS l
    match tokens.head? with
    | none => Except.ok []
    | some t0 =>
      if t0 ≠ "Attribute" then Except.ok []
      else if tokens.length < 3 then
        Except.error "Expecting at least 3 items on attribute line"
      else
        match replayAttrs rest with
        | Except.error e => Except.error e
        | Except.ok r => Except.ok ((tokens.getD 1 "", l) :: r)

/-- A renderer added to the view: (renderer class, pipeline name, data name). -/
abbrev Rnd := String × String × String

/-- The inner loop over the files of one data directory: renderers added (in
order) and the exception that aborted the walk, if any. -/
def loadFiles (pname dname : String) (attr : Option (List String)) :
    List String → List Rnd × Option String
  | [] => ([], none)
  | f :: fs =>
    match extOf f with
    | none => ([], some "substr: out of range")
    | some ext =>
      match rendererKindOf ext with
      | none => loadFiles pname dname attr fs
      | some kind =>
        match attr with
        | none => ([], some "Error reading attributes.txt")
        | some lines =>
          match replayAttrs lines with
          | Except.error e => ([], some e)
          | Except.ok _ =>
            let r := loadFiles pname dname attr fs
            ((kind, pname, dname) :: r.1, r.2)

/-- The loop over the data directories of one pipeline directory. -/
def loadDatas (pname : String) : List DataDir → List Rnd × Option String
  | [] => ([], none)
  | d :: ds =>
    let r := loadFiles pname d.name d.attr d.files
    match r.2 with
    | some e => (r.1, some e)
    | none =>
      let r2 := loadDatas pname ds
      (r.1 ++ r2.1, r2.2)

/-- The outer loop over pipeline directories.  `loadResults` has no handler:
a thrown exception aborts the remaining iterations (and propagates). -/
def loadPipes : List PipeDir → List Rnd × Option String
  | [] => ([], none)
  | p :: ps =>
    let r := loadDatas p.name p.datas
    match r.2 with
    | some e => (r.1, some e)
    | none =>
      let r2 := loadPipes ps
      (r.1 ++ r2.1, r2.2)

/-- `Project::loadResults` for one WSI: the renderers added to the view and
the exception that escaped the function, if any. -/
def loadResults (pipes : List PipeDir) : List Rnd × Option String := loadPipes pipes

/-! ## The model run (`ProcessManager::pixelClassifier`) -/

/-- Modelled from the spec:
`getModelFileExtension(engine->getPreferredModelFormat())` comes from the
external FAST library.  The spec's priority table ties TensorRT to onnx (its
highest-ranked format), OpenVINO to xml/IR, and TensorFlow to pb. -/
def preferredExt : String → String
  | "TensorFlow" => "pb"
  | "OpenVINO" => "xml"
  | "TensorRT" => "onnx"
  | _ => ""

/-- Modelled from the spec: `WholeSlideImage::insert_renderer` is not under
`src/`; section 4.3 states registration is keyed by model name and is a no-op
when the key is already present. -/
def insertRenderer (rs : List (String × String)) (name ty : String) : List (String × String) :=
  if (rs.find? (fun p => p.1 == name)).isSome then rs else rs ++ [(name, ty)]

/-- Modelled from the spec: `WholeSlideImage::has_renderer`, the registration
guard of line 285. -/
def hasRendererB (rs : List (String × String)) (name : String) : Bool :=
  (rs.find? (fun p => p.1 == name)).isSome

/-- Everything one `pixelClassifier(process_name)` invocation reads: the model
metadata map, the WSI's OpenSlide metadata and magnification, the model
directory listing, the installed engines, the `.anchors` file lines (empty
when the file is missing, as an unchecked `ifstream` then reads nothing), and
the image's current renderer registrations. -/
structure RunInput where
  processName : String
  md : Metadata
  imgMeta : Metadata
  magn : ℚ
  files : List String
  engines : List String
  anchorLines : List String
  renderers : List (String × String)
deriving DecidableEq

/-- What a run leaves behind: the image's renderer set, the engine the main
network was configured with, the model-format extension finally loaded, and
whether a CPU device type was requested; `bbEngine` is the engine of the
separate bounding-box network of the detection path. -/
structure Outcome where
  renderers : List (String × String)
  netEngine : Option String
  chosenExt : String
  deviceCPU : Bool
  bbEngine : Option String
  patchSpec : Option PatchSpec
deriving DecidableEq

/-- The outcome of a run that changed nothing on the image. -/
def unchangedOutcome (inp : RunInput) : Outcome :=
  { renderers := inp.renderers, netEngine := none, chosenExt := "",
    deviceCPU := false, bbEngine := none, patchSpec := none }

/-- Lines 288-296: parse the model magnification and the level-1 downsample
when `magnification_level` is set; otherwise warn and default. -/
def patchSpecOf (inp : RunInput) : Except String PatchSpec :=
  if mget inp.md "magnification_level" != "" then
    match stoiM (mget inp.md "magnification_level") with
    | Except.error e => Except.error e
    | Except.ok m =>
      match stofDec (mget inp.imgMeta "openslide.level[1].downsample") with
      | Except.error e => Except.error e
      | Except.ok ds => Except.ok (PatchSpec.fromMagn inp.magn m (cppRoundDec ds.1 ds.2))
  else Except.ok PatchSpec.default0

/-- The level scan of lines 315-324 with its metadata parses: each iteration
reads and converts the level's width and height (either `stoi` may throw) and
the loop breaks at the first violating level.  Its would-be result is
discarded by line 327, so only the effects (possible exceptions) remain. -/
def scanParse (imgMeta : Metadata) (w h : Int) : Nat → Nat → Except String Unit
  | _, 0 => Except.ok ()
  | i, Nat.succ rem =>
    match stoiM (mget imgMeta ("openslide.level[" ++ toString i ++ "].width")) with
    | Except.error e => Except.error e
    | Except.ok wi =>
      match stoiM (mget imgMeta ("openslide.level[" ++ toString i ++ "].height")) with
      | Except.error e => Except.error e
      | Except.ok hi =>
        if wi ≤ w * 2 || hi ≤ h * 2 then Except.ok ()
        else scanParse imgMeta w h (i + 1) rem

/-- Result of the pre-resolution part of the run: `earlyExit` is the plain
`return` of line 334 (degenerate low-res level); otherwise the run proceeds
with the low-res level (when on the low-res path) and the patch spec. -/
inductive PrepResult where
  | earlyExit : PrepResult
  | proceed (currLvl : Option Int) (pspec : PatchSpec) : PrepResult
deriving DecidableEq

/-- Lines 288-343: patch-level computation, then the low-res block with its
level-count / input-size parses, the (discarded) scan, the unconditional
`currLvl = levelCount - 1` of line 327 and the `currLvl < 0` early return. -/
def prepStage (inp : RunInput) : Except String PrepResult :=
  match patchSpecOf inp with
  | Except.error e => Except.error e
  | Except.ok pspec =>
    if mget inp.md "resolution" == "low" then
      match stoiM (mget inp.imgMeta "openslide.level-count") with
      | Except.error e => Except.error e
      | Except.ok levelCount =>
        match stoiM (mget inp.md "input_img_size_x") with
        | Except.error e => Except.error e
        | Except.ok w =>
          match stoiM (mget inp.md "input_img_size_y") with
          | Except.error e => Except.error e
          | Except.ok h =>
            match scanParse inp.imgMeta w h 0 levelCount.toNat with
            | Except.error e => Except.error e
            | Except.ok _ =>
              if levelCount - 1 < 0 then Except.ok PrepResult.earlyExit
              else Except.ok (PrepResult.proceed (some (levelCount - 1)) pspec)
    else Except.ok (PrepResult.proceed none pspec)

/-- The engine configuration carried by the main network object. -/
structure EngineCfg where
  engine : String
  chosenIE : String
  deviceCPU : Bool
deriving DecidableEq

/-- Lines 396-418: when the CPU flag is 1, prefer TensorFlow with a `.pb`
file, then OpenVINO with a `.xml` file, each with a CPU device type; with no
CPU-capable alternative only a diagnostic is printed. -/
def cpuOverride (fmts engines : List String) (cfg : EngineCfg) : EngineCfg :=
  if fmts.contains ".pb" && engines.contains "TensorFlow" then
    { engine := "TensorFlow", chosenIE := cfg.chosenIE, deviceCPU := true }
  else if fmts.contains ".xml" && engines.contains "OpenVINO" then
    { engine := "OpenVINO", chosenIE := cfg.chosenIE, deviceCPU := true }
  else cfg

/-- Lines 393-427: the unconditional `stoi(modelMetadata["cpu"])` (which
throws when the key is absent or non-numeric), the CPU override, then the
metadata-pinned engine of lines 422-427 which replaces the engine and takes
that engine's preferred model format. -/
def engineStage (md : Metadata) (fmts engines : List String)
    (resolved : String × String) : Except String EngineCfg :=
  match stoiM (mget md "cpu") with
  | Except.error e => Except.error e
  | Except.ok cpuv =>
    let cfg0 : EngineCfg := { engine := resolved.1, chosenIE := resolved.2, deviceCPU := false }
    let cfg1 := if cpuv == 1 then cpuOverride fmts engines cfg0 else cfg0
    if mhas md "IE" && mget md "IE" != "none" then
      Except.ok { engine := mget md "IE", chosenIE := preferredExt (mget md "IE"),
                  deviceCPU := cfg1.deviceCPU }
    else Except.ok cfg1

/-- Lines 431-457: TensorFlow-family backends parse explicit input/output
tensor shapes from the metadata. -/
def tfShapeParse (md : Metadata) : Except String Unit :=
  match stoiM (mget md "input_img_size_y") with
  | Except.error e => Except.error e
  | Except.ok _ =>
    match stoiM (mget md "input_img_size_x") with
    | Except.error e => Except.error e
    | Except.ok _ =>
      match stoiM (mget md "nb_channels") with
      | Except.error e => Except.error e
      | Except.ok _ =>
        if mget md "problem" == "classification" then
          match stoiM (mget md "nb_classes") with
          | Except.error e => Except.error e
          | Except.ok _ => Except.ok ()
        else if mget md "problem" == "segmentation" then
          match stoiM (mget md "input_img_size_y") with
          | Except.error e => Except.error e
          | Except.ok _ =>
            match stoiM (mget md "input_img_size_x") with
            | Except.error e => Except.error e
            | Except.ok _ =>
              match stoiM (mget md "nb_classes") with
              | Except.error e => Except.error e
              | Except.ok _ => Except.ok ()
        else if mget md "problem" == "object_detection" then
          match stoiM (mget md "nb_classes") with
          | Except.error e => Except.error e
          | Except.ok _ => Except.ok ()
        else Except.ok ()

/-- Lines 459-468: the TensorRT/uff path parses channel-first shapes (the
source reads `input_img_size_y` twice at lines 464-465). -/
def trtShapeParse (md : Metadata) : Except String Unit :=
  match stoiM (mget md "nb_channels") with
  | Except.error e => Except.error e
  | Except.ok _ =>
    match stoiM (mget md "input_img_size_y") with
    | Except.error e => Except.error e
    | Except.ok _ =>
      match stoiM (mget md "input_img_size_y") with
      | Except.error e => Except.error e
      | Except.ok _ =>
        match stoiM (mget md "nb_classes") with
        | Except.error e => Except.error e
        | Except.ok _ => Except.ok ()

/-- Lines 429-473: per-backend shape configuration, the re-derivation of
`chosenIE` for backends that are neither TensorRT nor OpenVINO (line 470),
and `network->load` of `<name>.<chosenIE>`, which fails when that file is not
among the model's on-disk files.  Returns the extension finally loaded. -/
def shapeLoadStage (md : Metadata) (fmts : List String) (cfg : EngineCfg) :
    Except String String :=
  match (if String.mk (cfg.engine.data.take 10) == "TensorFlow" then tfShapeParse md
         else if cfg.engine == "TensorRT" && cfg.chosenIE == "uff" then trtShapeParse md
         else Except.ok ()) with
  | Except.error e => Except.error e
  | Except.ok _ =>
    if fmts.contains ("." ++ (if cfg.engine != "TensorRT" && cfg.engine != "OpenVINO"
                              then preferredExt cfg.engine else cfg.chosenIE)) then
      Except.ok (if cfg.engine != "TensorRT" && cfg.engine != "OpenVINO"
                 then preferredExt cfg.engine else cfg.chosenIE)
    else Except.error "load: model file not found"

/-- Lines 475-548: the patch generator.  The low-res path only runs the
resizer; the high-res path handles the tissue threshold, the patch size
parses, and the optional mask threshold and patch overlap. -/
def generatorStage (md : Metadata) : Except String Unit :=
  if mget md "resolution" == "low" then Except.ok ()
  else
    match (if mget md "tissue_threshold" == "none" then Except.ok 0
           else if mget md "tissue_threshold" != "" then stoiM (mget md "tissue_threshold")
           else Except.ok 0) with
    | Except.error e => Except.error e
    | Except.ok _ =>
      match stoiM (mget md "input_img_size_y") with
      | Except.error e => Except.error e
      | Except.ok _ =>
        match stoiM (mget md "input_img_size_x") with
        | Except.error e => Except.error e
        | Except.ok _ =>
          match (if mget md "mask_threshold" == "" then Except.ok ((0 : Int), (0 : Nat))
                 else stofDec (mget md "mask_threshold")) with
          | Except.error e => Except.error e
          | Except.ok _ =>
            match (if mget md "patch_overlap" == "" then Except.ok ((0 : Int), (0 : Nat))
                   else stofDec (mget md "patch_overlap")) with
            | Except.error e => Except.error e
            | Except.ok _ => Except.ok ()

/-- `splitCustom(scale_factor, "/")` followed by `stoi` of entries 0 and 1
(the unchecked `[1]` is out of range when the field has no slash). -/
def scalePair (md : Metadata) : Except String Unit :=
  match vecGet (splitCustom (mget md "scale_factor") "/") 0 with
  | Except.error e => Except.error e
  | Except.ok a =>
    match stoiM a with
    | Except.error e => Except.error e
    | Except.ok _ =>
      match vecGet (splitCustom (mget md "scale_factor") "/") 1 with
      | Except.error e => Except.error e
      | Except.ok b =>
        match stoiM b with
        | Except.error e => Except.error e
        | Except.ok _ => Except.ok ()

/-- Lines 550-560: intensity rescale only when `scale_factor` is set. -/
def scaleStage (md : Metadata) : Except String Unit :=
  if mget md "scale_factor" == "" then Except.ok () else scalePair md

/-- Lines 579-585 / 630-636 / 767-774: `stoi(nb_classes)` then, for each
class index, the `class_colors` entry split on `,` and three `stoi` calls. -/
def parseColorEntry (c : String) : Except String Unit :=
  match vecGet (splitCustom c ",") 0 with
  | Except.error e => Except.error e
  | Except.ok r =>
    match stoiM r with
    | Except.error e => Except.error e
    | Except.ok _ =>
      match vecGet (splitCustom c ",") 1 with
      | Except.error e => Except.error e
      | Except.ok g =>
        match stoiM g with
        | Except.error e => Except.error e
        | Except.ok _ =>
          match vecGet (splitCustom c ",") 2 with
          | Except.error e => Except.error e
          | Except.ok b =>
            match stoiM b with
            | Except.error e => Except.error e
            | Except.ok _ => Except.ok ()

def parseColorsGo (colors : List String) : Nat → Nat → Except String Unit
  | _, 0 => Except.ok ()
  | i, Nat.succ rem =>
    match vecGet colors i with
    | Except.error e => Except.error e
    | Except.ok c =>
      match parseColorEntry c with
      | Except.error e => Except.error e
      | Except.ok _ => parseColorsGo colors (i + 1) rem

def parseColors (md : Metadata) : Except String Unit :=
  match stoiM (mget md "nb_classes") with
  | Except.error e => Except.error e
  | Except.ok nbc => parseColorsGo (splitCustom (mget md "class_colors") ";") 0 nbc.toNat

/-- One token of an anchor line: `splitCustom(tok, ",")`, then `stoi` of
entries 0 and 1 (entry 1 is out of range for a padded empty token, and `stoi`
of an empty entry throws). -/
def parseAnchorToken (t : String) : Except String Unit :=
  match vecGet (splitCustom t ",") 0 with
  | Except.error e => Except.error e
  | Except.ok a =>
    match stoiM a with
    | Except.error e => Except.error e
    | Except.ok _ =>
      match vecGet (splitCustom t ",") 1 with
      | Except.error e => Except.error e
      | Except.ok b =>
        match stoiM b with
        | Except.error e => Except.error e
        | Except.ok _ => Except.ok ()

def parseAnchorTokens : List String → Except String Unit
  | [] => Except.ok ()
  | t :: ts =>
    match parseAnchorToken t with
    | Except.error e => Except.error e
    | Except.ok _ => parseAnchorTokens ts

/-- Lines 688-703: each anchor line is split on blanks and resized to exactly
6 tokens (padding with empty strings), then consumed as 2 levels x 3 pairs. -/
def parseAnchorLine (line : String) : Except String Unit :=
  parseAnchorTokens ((splitCustom line " " ++ List.replicate 6 "").take 6)

def parseAnchors : List String → Except String Unit
  | [] => Except.ok ()
  | l :: ls =>
    match parseAnchorLine l with
    | Except.error e => Except.error e
    | Except.ok _ => parseAnchors ls

/-- Lines 562-802: the problem/resolution renderer tail.  Returns the image's
renderer set after the branch and the engine of the detection path's
bounding-box network (line 710 sets it to OpenVINO unconditionally; its
`load` uses OpenVINO's preferred format and fails when that file is absent).
Combinations with no branch fall through without touching the image. -/
def rendererStage (inp : RunInput) (fmts : List String) :
    Except String (List (String × String) × Option String) :=
  if mget inp.md "problem" == "classification" && mget inp.md "resolution" == "high" then
    match stoiM (mget inp.md "interpolation") with
    | Except.error e => Except.error e
    | Except.ok _ =>
      match parseColors inp.md with
      | Except.error e => Except.error e
      | Except.ok _ =>
        Except.ok (insertRenderer inp.renderers (mget inp.md "model_name") "HeatmapRenderer", none)
  else if mget inp.md "problem" == "segmentation" && mget inp.md "resolution" == "high" then
    match parseColors inp.md with
    | Except.error e => Except.error e
    | Except.ok _ =>
      Except.ok (insertRenderer inp.renderers (mget inp.md "model_name") "SegmentationRenderer", none)
  else if mget inp.md "problem" == "object_detection" && mget inp.md "resolution" == "high" then
    match (if mget inp.md "pred_threshold" == "" then Except.ok ((0 : Int), (0 : Nat))
           else stofDec (mget inp.md "nms_threshold")) with
    | Except.error e => Except.error e
    | Except.ok _ =>
      match parseAnchors inp.anchorLines with
      | Except.error e => Except.error e
      | Except.ok _ =>
        match scalePair inp.md with
        | Except.error e => Except.error e
        | Except.ok _ =>
          if fmts.contains ("." ++ preferredExt "OpenVINO") then
            match (if mget inp.md "nms_threshold" == "" then Except.ok ((0 : Int), (0 : Nat))
                   else stofDec (mget inp.md "nms_threshold")) with
            | Except.error e => Except.error e
            | Except.ok _ =>
              Except.ok (insertRenderer inp.renderers (mget inp.md "model_name") "BoundingBoxRenderer",
                         some "OpenVINO")
          else Except.error "load: model file not found"
  else if mget inp.md "problem" == "segmentation" && mget inp.md "resolution" == "low" then
    match parseColors inp.md with
    | Except.error e => Except.error e
    | Except.ok _ =>
      Except.ok (insertRenderer inp.renderers (mget inp.md "model_name") "SegmentationRenderer", none)
  else Except.ok (inp.renderers, none)

/-- The body of `ProcessManager::pixelClassifier` (the `try` block, lines
274-805): registration guard, preparation, engine resolution (an empty pair
makes `checkFlag` false and skips the whole configuration block, lines
376-384), engine configuration, shape configuration and model load, patch
generator, scale factor, and the renderer tail. -/
def pixelClassifierRun (inp : RunInput) : Except String Outcome :=
  if hasRendererB inp.renderers (mget inp.md "model_name") then Except.ok (unchangedOutcome inp)
  else
    match prepStage inp with
    | Except.error e => Except.error e
    | Except.ok PrepResult.earlyExit => Except.ok (unchangedOutcome inp)
    | Except.ok (PrepResult.proceed _currLvl pspec) =>
      if (selectOptimalIEcore (acceptedFormats inp.files inp.processName) inp.engines).2 == "" then
        Except.ok (unchangedOutcome inp)
      else
        match engineStage inp.md (acceptedFormats inp.files inp.processName) inp.engines
              (selectOptimalIEcore (acceptedFormats inp.files inp.processName) inp.engines) with
        | Except.error e => Except.error e
        | Except.ok cfg =>
          match shapeLoadStage inp.md (acceptedFormats inp.files inp.processName) cfg with
          | Except.error e => Except.error e
          | Except.ok chosen2 =>
            match generatorStage inp.md with
            | Except.error e => Except.error e
            | Except.ok _ =>
              match scaleStage inp.md with
              | Except.error e => Except.error e
              | Except.ok _ =>
                match rendererStage inp (acceptedFormats inp.files inp.processName) with
                | Except.error e => Except.error e
                | Except.ok pr =>
                  Except.ok { renderers := pr.1, netEngine := some cfg.engine,
                              chosenExt := chosen2, deviceCPU := cfg.deviceCPU,
                              bbEngine := pr.2, patchSpec := some pspec }

/-- `pixelClassifier` with its top-level handler (lines 806-811): every
exception from the body is caught and logged, leaving the image exactly as it
was before the attempt. -/
def pixelClassifier (inp : RunInput) : Outcome :=
  match pixelClassifierRun inp with
  | Except.ok o => o
  | Except.error _ => unchangedOutcome inp

def isErr {α : Type} : Except String α → Bool
  | Except.error _ => true
  | Except.ok _ => false

/-! ## Concrete run inputs used by witnesses and counterexamples -/

/-- A low-res run on a 3-level pyramid (1000, 100, 10 pixels square) with a
100x100 model input: the scan stops at level 1 and would select level 0. -/
def c2inp : RunInput :=
  { processName := "m",
    md := [("model_name", "m"), ("resolution", "low"),
           ("input_img_size_x", "100"), ("input_img_size_y", "100")],
    imgMeta := [("openslide.level-count", "3"),
                ("openslide.level[0].width", "1000"), ("openslide.level[0].height", "1000"),
                ("openslide.level[1].width", "100"), ("openslide.level[1].height", "100"),
                ("openslide.level[2].width", "10"), ("openslide.level[2].height", "10")],
    magn := 20, files := [], engines := [], anchorLines := [], renderers := [] }

/-- A 80x-magnification image with a 10x model and a level-1 downsample of 3:
the log-ratio is strictly between 3/2 and 2. -/
def c5inp : RunInput :=
  { processName := "m",
    md := [("model_name", "m"), ("magnification_level", "10"), ("resolution", "high")],
    imgMeta := [("openslide.level[1].downsample", "3")],
    magn := 80, files := [], engines := [], anchorLines := [], renderers := [] }

/-- A low-res run whose image metadata lacks `openslide.level-count`: the
`stoi` of the empty lookup throws inside the try block. -/
def c3w : RunInput :=
  { processName := "m",
    md := [("model_name", "m"), ("resolution", "low")],
    imgMeta := [],
    magn := 20, files := [], engines := [], anchorLines := [],
    renderers := [("existing", "SegmentationRenderer")] }

/-- A model that pins `IE` to TensorFlow but whose priority search finds no
match (an `.onnx` file with no installed engine at all). -/
def c6x : RunInput :=
  { processName := "m",
    md := [("model_name", "m"), ("name", "m"), ("IE", "TensorFlow"),
           ("problem", "classification"), ("resolution", "high")],
    imgMeta := [],
    magn := 20, files := ["m.onnx"], engines := [], anchorLines := [], renderers := [] }

/-- A pinned-engine run where the priority search succeeds: the search picks
(OpenVINO, onnx) but the metadata pins TensorFlow, which prefers `.pb`. -/
def c6w : RunInput :=
  { processName := "m",
    md := [("model_name", "m"), ("name", "m"), ("IE", "TensorFlow"), ("cpu", "0"),
           ("problem", "classification"), ("resolution", "high"),
           ("tissue_threshold", "none"),
           ("input_img_size_x", "256"), ("input_img_size_y", "256"),
           ("nb_channels", "3"), ("nb_classes", "1"), ("class_colors", "255,0,0"),
           ("interpolation", "1"), ("input_node", "i"), ("output_node", "o")],
    imgMeta := [],
    magn := 20, files := ["m.onnx", "m.pb"], engines := ["OpenVINO", "TensorFlow"],
    anchorLines := [], renderers := [] }

/-- A resolvable run whose metadata has no `cpu` key at all: line 396's
`stoi(modelMetadata["cpu"])` throws. -/
def c7x : RunInput :=
  { processName := "m",
    md := [("model_name", "m"), ("problem", "classification"), ("resolution", "high")],
    imgMeta := [],
    magn := 20, files := ["m.onnx"], engines := ["OpenVINO"], anchorLines := [], renderers := [] }

/-- An object-detection high-res run whose priority search resolves to
TensorRT (not OpenVINO), with an `.xml` file also on disk so the detection
path's hard-coded OpenVINO load succeeds. -/
def c8x : RunInput :=
  { processName := "m",
    md := [("model_name", "m"), ("name", "m"), ("cpu", "0"),
           ("problem", "object_detection"), ("resolution", "high"),
           ("tissue_threshold", "none"),
           ("input_img_size_x", "256"), ("input_img_size_y", "256"),
           ("nb_channels", "3"), ("nb_classes", "1"),
           ("scale_factor", "1/255"), ("input_node", "i"), ("output_node", "o")],
    imgMeta := [],
    magn := 20, files := ["m.onnx", "m.xml"], engines := ["TensorRT", "OpenVINO"],
    anchorLines := ["10,14 23,27 37,58 81,82 135,169 344,319"], renderers := [] }

/-- A result set with a malformed attribute line (2 tokens). -/
def badPipe : PipeDir :=
  { name := "pipeA",
    datas := [{ name := "seg", files := ["attributes.txt", "seg.tiff"],
                attr := some ["Attribute onlyonetoken"] }] }

/-- A well-formed sibling result set. -/
def goodPipe : PipeDir :=
  { name := "pipeB",
    datas := [{ name := "seg", files := ["attributes.txt", "seg.tiff"],
                attr := some ["Attribute opacity 0.5"] }] }

def c9root : String := "/home/user/proj"

def c9imgs : List (String × WholeSlideImage) := [("wsi1", WholeSlideImage.mk "/data/a.tiff")]

def c10imgs : List (String × WholeSlideImage) := [("a", WholeSlideImage.mk "/x/a.tiff")]

/-! # Theorems -/

/-- C1: the engine resolver returns the first candidate of the fixed priority
order (TensorRT, onnx), (TensorRT, uff), (OpenVINO, onnx), (OpenVINO, xml),
(TensorFlow, pb) whose format is available and whose backend is installed,
and the empty sentinel otherwise; the result depends only on membership in
the two sets (not on their iteration order); and formats `{onnx, xml}` with
backends `{OpenVINO}` resolve to (OpenVINO, onnx). -/
theorem C1_engine_resolver_priority :
    (∀ fmts engines : List String, selectOptimalIEcore fmts engines = resolveSpec fmts engines) ∧
    (∀ f g e i : List String,
      (∀ s, f.contains s = g.contains s) → (∀ s, e.contains s = i.contains s) →
      selectOptimalIEcore f e = selectOptimalIEcore g i) ∧
    selectOptimalIEcore [".onnx", ".xml"] ["OpenVINO"] = ("OpenVINO", "onnx") := by
  refine ⟨?_, ?_, by decide⟩
  · intro fmts engines
    by_cases a1 : (".onnx" ∈ fmts) <;>
    by_cases a2 : (".uff" ∈ fmts) <;>
    by_cases a3 : (".xml" ∈ fmts) <;>
    by_cases a4 : (".pb" ∈ fmts) <;>
    by_cases b1 : ("TensorRT" ∈ engines) <;>
    by_cases b2 : ("OpenVINO" ∈ engines) <;>
    by_cases b3 : ("TensorFlow" ∈ engines) <;>
    simp [selectOptimalIEcore, resolveSpec, enginePriority, List.find?,
          a1, a2, a3, a4, b1, b2, b3]
  · intro f g e i hf he
    simp only [selectOptimalIEcore, hf, he]

theorem C1_witness :
    selectOptimalIEcore [".onnx", ".xml"] ["OpenVINO"] = resolveSpec [".onnx", ".xml"] ["OpenVINO"] ∧
    selectOptimalIEcore [".xml", ".onnx"] ["OpenVINO"] =
      selectOptimalIEcore [".onnx", ".xml"] ["OpenVINO"] := by
  refine ⟨C1_engine_resolver_priority.1 [".onnx", ".xml"] ["OpenVINO"],
          C1_engine_resolver_priority.2.1 [".xml", ".onnx"] [".onnx", ".xml"]
            ["OpenVINO"] ["OpenVINO"] ?_ ?_⟩
  · intro s
    simp [List.contains_cons, Bool.or_comm]
  · intro s
    rfl

/-- C2: on a 3-level pyramid with dimensions 1000/100/10 and a 100x100 model
input, the scan of lines 315-324 selects level 0 (the last level at least
twice the input size), but line 327 unconditionally overwrites the result
with `levelCount - 1`, so the code picks level 2 — and the run model's
preparation stage picks the same overwritten level.  The claim's selection
rule (coarsest only when no level violates the bound) gives 0, not 2. -/
theorem C2_low_res_level_overwrite_bug :
    lowResChosenLevel [(1000, 1000), (100, 100), (10, 10)] 100 100 = 2 ∧
    lowResChosenLevelSpec [(1000, 1000), (100, 100), (10, 10)] 100 100 = 0 ∧
    lowResScan [(1000, 1000), (100, 100), (10, 10)] 100 100 = some 0 ∧
    prepStage c2inp = Except.ok (PrepResult.proceed (some 2) PatchSpec.default0) :=
  ⟨by decide, by decide, by decide, by decide⟩

/-- C3: a run that fails — because its body raised (modelled `Except.error`)
or because engine resolution returned the empty sentinel pair — leaves the
image's renderer set exactly as it was before the attempt. -/
theorem C3_failed_run_preserves_renderers (inp : RunInput)
    (h : isErr (pixelClassifierRun inp) = true ∨
         selectOptimalIEcore (acceptedFormats inp.files inp.processName) inp.engines = ("", "")) :
    (pixelClassifier inp).renderers = inp.renderers := by
  unfold pixelClassifier
  cases hrun : pixelClassifierRun inp with
  | error e => rfl
  | ok o =>
    rcases h with h | h
    · rw [hrun] at h
      simp [isErr] at h
    · unfold pixelClassifierRun at hrun
      by_cases hhr : hasRendererB inp.renderers (mget inp.md "model_name") = true
      · simp only [hhr, if_true] at hrun
        obtain rfl := Except.ok.inj hrun
        rfl
      · simp only [Bool.not_eq_true] at hhr
        simp only [hhr, Bool.false_eq_true, if_false] at hrun
        cases hprep : prepStage inp with
        | error e2 => rw [hprep] at hrun; exact Except.noConfusion hrun
        | ok pr =>
          rw [hprep] at hrun
          cases pr with
          | earlyExit =>
            obtain rfl := Except.ok.inj hrun
            rfl
          | proceed c ps =>
            rw [h] at hrun
            simp only [String.reduceBEq, if_true] at hrun
            obtain rfl := Except.ok.inj hrun
            rfl

theorem C3_witness : (pixelClassifier c3w).renderers = c3w.renderers :=
  C3_failed_run_preserves_renderers c3w (Or.inl (by decide))

/-- Processing pipeline directories distributes over append as long as the
prefix raised no exception. -/
theorem loadPipes_append_ok (xs ys : List PipeDir) (h : (loadPipes xs).2 = none) :
    loadPipes (xs ++ ys) = ((loadPipes xs).1 ++ (loadPipes ys).1, (loadPipes ys).2) := by
  induction xs with
  | nil => simp [loadPipes]
  | cons p ps ih =>
    simp only [loadPipes] at h ⊢
    cases hd : (loadDatas p.name p.datas).2 with
    | some e => simp [hd] at h
    | none =>
      simp only [hd, List.append_eq] at h ⊢
      rw [ih h]
      simp [List.append_assoc]

/-- An exception raised in a prefix of the pipeline directories aborts the
walk: directories after it are never visited. -/
theorem loadPipes_append_err (xs ys : List PipeDir) (h : (loadPipes xs).2.isSome = true) :
    loadPipes (xs ++ ys) = loadPipes xs := by
  induction xs with
  | nil => simp [loadPipes] at h
  | cons p ps ih =>
    simp only [loadPipes] at h ⊢
    cases hd : (loadDatas p.name p.datas).2 with
    | some e => simp [hd]
    | none =>
      simp only [hd, List.append_eq] at h ⊢
      rw [ih h]

/-- C4 counterexample: a malformed attribute line in the first result set
aborts the whole `loadResults` call, so the well-formed sibling result set —
which loads fine on its own — contributes no renderer. -/
theorem C4_counterexample :
    loadResults [badPipe, goodPipe] = ([], some "Expecting at least 3 items on attribute line") ∧
    loadResults [goodPipe] = ([("SegmentationRenderer", "pipeB", "seg")], none) :=
  ⟨by decide, by decide⟩

/-- C4 amended: the exception thrown for a malformed attribute line (or a
missing attributes file) propagates out of `loadResults`: result sets walked
before the failing one keep their renderers, the failing set contributes its
partial renderers, and every result set after it is not loaded at all. -/
theorem C4_load_abort_propagates (gs rest : List PipeDir) (b : PipeDir)
    (hg : (loadResults gs).2 = none) (hb : (loadResults [b]).2.isSome = true) :
    (loadResults (gs ++ b :: rest)).1 = (loadResults gs).1 ++ (loadResults [b]).1 ∧
    (loadResults (gs ++ b :: rest)).2.isSome = true := by
  have h1 : gs ++ b :: rest = gs ++ ([b] ++ rest) := by simp
  unfold loadResults at *
  rw [h1, loadPipes_append_ok gs ([b] ++ rest) hg, loadPipes_append_err [b] rest hb]
  constructor
  · rfl
  · simpa using hb

theorem C4_witness :
    (loadResults ([goodPipe] ++ badPipe :: [])).1 =
      (loadResults [goodPipe]).1 ++ (loadResults [badPipe]).1 ∧
    (loadResults ([goodPipe] ++ badPipe :: [])).2.isSome = true :=
  C4_load_abort_propagates [goodPipe] [] badPipe (by decide) (by decide)

/-- The log-ratio of the C5 instance lies strictly between 3/2 and 2. -/
theorem c5_log_bounds :
    (3 / 2 : ℝ) < Real.log 8 / Real.log 3 ∧ Real.log 8 / Real.log 3 < 2 := by
  have h3 : (0 : ℝ) < Real.log 3 := Real.log_pos (by norm_num)
  have l27 : Real.log 27 = 3 * Real.log 3 := by
    rw [show (27 : ℝ) = 3 ^ (3 : ℕ) by norm_num, Real.log_pow]
    push_cast
    ring
  have l64 : Real.log 64 = 2 * Real.log 8 := by
    rw [show (64 : ℝ) = 8 ^ (2 : ℕ) by norm_num, Real.log_pow]
    push_cast
    ring
  have l9 : Real.log 9 = 2 * Real.log 3 := by
    rw [show (9 : ℝ) = 3 ^ (2 : ℕ) by norm_num, Real.log_pow]
    push_cast
    ring
  constructor
  · rw [lt_div_iff₀ h3]
    have hlt : Real.log 27 < Real.log 64 := Real.log_lt_log (by norm_num) (by norm_num)
    nlinarith [hlt]
  · rw [div_lt_iff₀ h3]
    have hlt : Real.log 8 < Real.log 9 := Real.log_lt_log (by norm_num) (by norm_num)
    nlinarith [hlt]

/-- C5 counterexample: an 80x image with a 10x model over a downsample of 3
yields the patch spec (80, 10, 3); the code's `(int)` cast truncates the
log-ratio (about 1.89) to 1, while the claim's `round` gives 2. -/
theorem C5_counterexample :
    patchSpecOf c5inp = Except.ok (PatchSpec.fromMagn 80 10 3) ∧
    levelOf (PatchSpec.fromMagn 80 10 3) = 1 ∧
    levelOfSpecRound (PatchSpec.fromMagn 80 10 3) = 2 := by
  have e1 : ((80 : ℚ) : ℝ) / (((10 : ℤ) : ℤ) : ℝ) = 8 := by push_cast; norm_num
  have e2 : (((3 : ℤ) : ℤ) : ℝ) = 3 := by push_cast; ring
  obtain ⟨hl, hu⟩ := c5_log_bounds
  refine ⟨by decide, ?_, ?_⟩
  · show cppIntCast (Real.log (((80 : ℚ) : ℝ) / (((10 : ℤ) : ℤ) : ℝ)) /
      Real.log ((((3 : ℤ) : ℤ)) : ℝ)) = 1
    rw [e1, e2]
    have hpos : (0 : ℝ) ≤ Real.log 8 / Real.log 3 := by linarith
    simp only [cppIntCast, if_pos hpos]
    rw [Int.floor_eq_iff]
    constructor
    · push_cast; linarith
    · push_cast; linarith
  · show round (Real.log (((80 : ℚ) : ℝ) / (((10 : ℤ) : ℤ) : ℝ)) /
      Real.log ((((3 : ℤ) : ℤ)) : ℝ)) = 2
    rw [e1, e2, round_eq, Int.floor_eq_iff]
    constructor
    · push_cast; linarith
    · push_cast; linarith

/-- A successful preparation on the `proceed` path records exactly the patch
spec computed at lines 288-296. -/
theorem prepStage_patchSpec (inp : RunInput) (c : Option Int) (ps : PatchSpec)
    (h : prepStage inp = Except.ok (PrepResult.proceed c ps)) :
    patchSpecOf inp = Except.ok ps := by
  unfold prepStage at h
  split at h
  · exact Except.noConfusion h
  · rename_i ps2 heq
    rw [heq]
    split at h
    · split at h
      · exact Except.noConfusion h
      · split at h
        · exact Except.noConfusion h
        · split at h
          · exact Except.noConfusion h
          · split at h
            · exact Except.noConfusion h
            · split at h
              · exact PrepResult.noConfusion (Except.ok.inj h)
              · obtain heq2 := Except.ok.inj h
                cases heq2
                rfl
    · obtain heq2 := Except.ok.inj h
      cases heq2
      rfl

/-- A successful run either changed nothing (its outcome records no patch
spec) or recorded the patch spec of the preparation stage. -/
theorem run_patchSpec (inp : RunInput) (o : Outcome) (ps : PatchSpec)
    (hok : pixelClassifierRun inp = Except.ok o)
    (hps : patchSpecOf inp = Except.ok ps) :
    o.patchSpec = none ∨ o.patchSpec = some ps := by
  unfold pixelClassifierRun at hok
  split at hok
  · obtain rfl := Except.ok.inj hok; exact Or.inl rfl
  · split at hok
    · exact Except.noConfusion hok
    · obtain rfl := Except.ok.inj hok; exact Or.inl rfl
    · rename_i c ps2 hprep
      split at hok
      · obtain rfl := Except.ok.inj hok; exact Or.inl rfl
      · split at hok
        · exact Except.noConfusion hok
        · split at hok
          · exact Except.noConfusion hok
          · split at hok
            · exact Except.noConfusion hok
            · split at hok
              · exact Except.noConfusion hok
              · split at hok
                · exact Except.noConfusion hok
                · obtain rfl := Except.ok.inj hok
                  right
                  show some ps2 = some ps
                  have hlink := prepStage_patchSpec inp c ps2 hprep
                  rw [hps] at hlink
                  rw [Except.ok.inj hlink]

/-- C5 amended: when `magnification_level` parses to `m` and the level-1
downsample parses to the decimal `ds`, the run records the patch spec
(image magnification, m, round(ds)), and the level the code computes from it
is the C `(int)` truncation — not the round — of
`log(magn / m) / log(round(ds))`; when `magnification_level` is empty the
patch level defaults to 0. -/
theorem C5_truncated_patch_level (inp : RunInput) (m : Int) (ds : Int × Nat)
    (h0 : (mget inp.md "magnification_level" != "") = true)
    (h2 : stoiM (mget inp.md "magnification_level") = Except.ok m)
    (h3 : stofDec (mget inp.imgMeta "openslide.level[1].downsample") = Except.ok ds) :
    patchSpecOf inp = Except.ok (PatchSpec.fromMagn inp.magn m (cppRoundDec ds.1 ds.2)) ∧
    levelOf (PatchSpec.fromMagn inp.magn m (cppRoundDec ds.1 ds.2)) =
      cppIntCast (Real.log ((inp.magn : ℝ) / (m : ℝ)) /
        Real.log ((cppRoundDec ds.1 ds.2 : ℤ) : ℝ)) ∧
    (∀ o : Outcome, pixelClassifierRun inp = Except.ok o →
      o.patchSpec = none ∨
      o.patchSpec = some (PatchSpec.fromMagn inp.magn m (cppRoundDec ds.1 ds.2))) ∧
    (∀ inp2 : RunInput, (mget inp2.md "magnification_level" != "") = false →
      patchSpecOf inp2 = Except.ok PatchSpec.default0 ∧ levelOf PatchSpec.default0 = 0) := by
  have hspec : patchSpecOf inp = Except.ok (PatchSpec.fromMagn inp.magn m (cppRoundDec ds.1 ds.2)) := by
    simp [patchSpecOf, h0, h2, h3]
  refine ⟨hspec, rfl, ?_, ?_⟩
  · intro o hok
    exact run_patchSpec inp o _ hok hspec
  · intro inp2 hno
    exact ⟨by simp [patchSpecOf, hno], rfl⟩

theorem C5_witness :
    patchSpecOf c5inp = Except.ok (PatchSpec.fromMagn 80 10 (cppRoundDec 3 0)) :=
  (C5_truncated_patch_level c5inp 10 (3, 0) (by decide) (by decide) (by decide)).1

/-- When lines 422-427 apply a metadata pin, the configuration leaving the
engine stage carries the pinned engine and its preferred format. -/
theorem engineStage_pin (md : Metadata) (fmts engines : List String) (r : String × String)
    (cfg : EngineCfg) (h : engineStage md fmts engines r = Except.ok cfg)
    (h1 : mhas md "IE" = true) (h2 : mget md "IE" ≠ "none") :
    cfg.engine = mget md "IE" ∧ cfg.chosenIE = preferredExt (mget md "IE") := by
  unfold engineStage at h
  cases hc : stoiM (mget md "cpu") with
  | error e => rw [hc] at h; exact Except.noConfusion h
  | ok v =>
    rw [hc] at h
    have hcond : (mhas md "IE" && (mget md "IE" != "none")) = true := by
      simp [h1, h2]
    simp only [hcond, if_true] at h
    obtain rfl := Except.ok.inj h
    exact ⟨rfl, rfl⟩

/-- Line 470 re-derives `chosenIE` only for engines outside the
TensorRT/OpenVINO family, so a configuration already carrying its engine's
preferred format loads exactly that format. -/
theorem shapeLoad_preferred (md : Metadata) (fmts : List String) (cfg : EngineCfg) (c2 : String)
    (h : shapeLoadStage md fmts cfg = Except.ok c2)
    (hc : cfg.chosenIE = preferredExt cfg.engine) :
    c2 = preferredExt cfg.engine := by
  unfold shapeLoadStage at h
  cases hs : (if String.mk (cfg.engine.data.take 10) == "TensorFlow" then tfShapeParse md
              else if cfg.engine == "TensorRT" && cfg.chosenIE == "uff" then trtShapeParse md
              else Except.ok ()) with
  | error e => rw [hs] at h; exact Except.noConfusion h
  | ok u =>
    rw [hs] at h
    by_cases he : (cfg.engine != "TensorRT" && cfg.engine != "OpenVINO") = true
    · simp only [he, if_true] at h
      split at h
      · exact (Except.ok.inj h).symm
      · exact Except.noConfusion h
    · simp only [Bool.not_eq_true] at he
      simp only [he, Bool.false_eq_true, if_false] at h
      split at h
      · rw [← Except.ok.inj h, hc]
      · exact Except.noConfusion h

/-- C6 counterexample: a model that pins `IE` to TensorFlow but whose
priority search finds no match ends with no engine configured at all and no
renderer — the pin is inside the `checkFlag` block and never runs, contrary
to the claim that it short-circuits the search even when it finds no match. -/
theorem C6_counterexample :
    mhas c6x.md "IE" = true ∧ mget c6x.md "IE" = "TensorFlow" ∧
    selectOptimalIEcore (acceptedFormats c6x.files c6x.processName) c6x.engines = ("", "") ∧
    isErr (pixelClassifierRun c6x) = false ∧
    (pixelClassifier c6x).netEngine = none :=
  ⟨by decide, by decide, by decide, by decide, by decide⟩

/-- C6 amended: the pinned engine is honoured only when the priority search
succeeds (`checkFlag` true): every successful run past that gate with a pin
present configures the pinned engine with its preferred format extension;
when the search returns the empty pair, the whole configuration block — the
pin included — is skipped. -/
theorem C6_pin_requires_resolution (inp : RunInput) (o : Outcome)
    (hnr : hasRendererB inp.renderers (mget inp.md "model_name") = false)
    (hpe : prepStage inp ≠ Except.ok PrepResult.earlyExit)
    (hres : (selectOptimalIEcore (acceptedFormats inp.files inp.processName) inp.engines).2 ≠ "")
    (hpin1 : mhas inp.md "IE" = true) (hpin2 : mget inp.md "IE" ≠ "none")
    (hok : pixelClassifierRun inp = Except.ok o) :
    o.netEngine = some (mget inp.md "IE") ∧ o.chosenExt = preferredExt (mget inp.md "IE") := by
  unfold pixelClassifierRun at hok
  simp only [hnr, Bool.false_eq_true, if_false] at hok
  split at hok
  · exact Except.noConfusion hok
  · exact absurd (by assumption) hpe
  · rename_i c ps hprep
    have hcond : ((selectOptimalIEcore (acceptedFormats inp.files inp.processName)
        inp.engines).2 == "") = false := by
      simp [hres]
    simp only [hcond, Bool.false_eq_true, if_false] at hok
    split at hok
    · exact Except.noConfusion hok
    · rename_i cfg hes
      split at hok
      · exact Except.noConfusion hok
      · rename_i c2 hsl
        split at hok
        · exact Except.noConfusion hok
        · split at hok
          · exact Except.noConfusion hok
          · split at hok
            · exact Except.noConfusion hok
            · rename_i pr2 hrs
              obtain rfl := Except.ok.inj hok
              obtain ⟨he1, he2⟩ := engineStage_pin _ _ _ _ _ hes hpin1 hpin2
              refine ⟨?_, ?_⟩
              · show some cfg.engine = some (mget inp.md "IE")
                rw [he1]
              · show c2 = preferredExt (mget inp.md "IE")
                have hcc : cfg.chosenIE = preferredExt cfg.engine := by rw [he2, he1]
                rw [shapeLoad_preferred _ _ _ _ hsl hcc, he1]

theorem C6_witness :
    (pixelClassifier c6w).netEngine = some (mget c6w.md "IE") ∧
    (pixelClassifier c6w).chosenExt = preferredExt (mget c6w.md "IE") :=
  C6_pin_requires_resolution c6w (pixelClassifier c6w)
    (by decide) (by decide) (by decide) (by decide) (by decide) rfl

/-- C7 counterexample: with every other field well-formed and the priority
search succeeding, a metadata map with no `cpu` key makes line 396's `stoi`
throw: the run aborts with no engine configured and the renderer set
unchanged, contrary to the claim that an absent flag field still lets the
run proceed with the resolved backend. -/
theorem C7_counterexample :
    mhas c7x.md "cpu" = false ∧
    selectOptimalIEcore (acceptedFormats c7x.files c7x.processName) c7x.engines =
      ("OpenVINO", "onnx") ∧
    isErr (pixelClassifierRun c7x) = true ∧
    (pixelClassifier c7x).renderers = c7x.renderers ∧
    (pixelClassifier c7x).netEngine = none :=
  ⟨by decide, by decide, by decide, by decide, by decide⟩

/-- C7 amended: when the `cpu` field parses to 1 (and no pin is present),
the engine stage succeeds and overrides the backend to TensorFlow with a
`.pb` file when available, else OpenVINO with a `.xml` file, setting a CPU
device type; with no CPU-capable alternative it keeps the resolved backend
after a diagnostic.  When the `cpu` field is absent or non-numeric, `stoi`
throws instead (see the counterexample). -/
theorem C7_cpu_override (md : Metadata) (fmts engines : List String) (resolved : String × String)
    (h1 : stoiM (mget md "cpu") = Except.ok 1)
    (hnopin : (mhas md "IE" && (mget md "IE" != "none")) = false) :
    engineStage md fmts engines resolved =
      Except.ok (if fmts.contains ".pb" && engines.contains "TensorFlow" then
                   { engine := "TensorFlow", chosenIE := resolved.2, deviceCPU := true }
                 else if fmts.contains ".xml" && engines.contains "OpenVINO" then
                   { engine := "OpenVINO", chosenIE := resolved.2, deviceCPU := true }
                 else { engine := resolved.1, chosenIE := resolved.2, deviceCPU := false }) := by
  have h11 : ((1 : Int) == 1) = true := by decide
  unfold engineStage cpuOverride
  rw [h1]
  simp only [h11, hnopin, Bool.false_eq_true, if_false, if_true]

theorem C7_witness :
    engineStage [("cpu", "1")] [".pb"] ["TensorFlow"] ("OpenVINO", "onnx") =
      Except.ok { engine := "TensorFlow", chosenIE := "onnx", deviceCPU := true } := by
  rw [C7_cpu_override [("cpu", "1")] [".pb"] ["TensorFlow"] ("OpenVINO", "onnx")
      (by decide) (by decide)]
  decide

/-- The detection tail of lines 671-735 sets the bounding-box network's
engine to OpenVINO unconditionally whenever it completes. -/
theorem rendererStage_detection (inp : RunInput) (fmts : List String)
    (pr : List (String × String) × Option String)
    (hp : mget inp.md "problem" = "object_detection") (hr : mget inp.md "resolution" = "high")
    (h : rendererStage inp fmts = Except.ok pr) : pr.2 = some "OpenVINO" := by
  unfold rendererStage at h
  rw [hp, hr] at h
  simp only [String.reduceBEq, Bool.and_self, Bool.false_and, Bool.and_false, Bool.true_and,
             Bool.and_true, Bool.false_eq_true, if_false, if_true] at h
  split at h
  · exact Except.noConfusion h
  · split at h
    · exact Except.noConfusion h
    · split at h
      · exact Except.noConfusion h
      · split at h
        · split at h
          · exact Except.noConfusion h
          · obtain rfl := Except.ok.inj h; rfl
        · exact Except.noConfusion h

/-- C8 counterexample: an object-detection high-res run whose priority
search resolves to TensorRT completes successfully and registers its
bounding-box renderer — no failure occurs; the detection network is simply
and silently run on OpenVINO instead (line 710).  The claim that such a run
fails loudly with no renderer registered is false. -/
theorem C8_counterexample :
    (selectOptimalIEcore (acceptedFormats c8x.files c8x.processName) c8x.engines).1 =
      "TensorRT" ∧
    isErr (pixelClassifierRun c8x) = false ∧
    (pixelClassifier c8x).renderers = c8x.renderers ++ [("m", "BoundingBoxRenderer")] ∧
    (pixelClassifier c8x).netEngine = some "TensorRT" ∧
    (pixelClassifier c8x).bbEngine = some "OpenVINO" :=
  ⟨by decide, by decide, by decide, by decide, by decide⟩

/-- C8 amended: there is no backend check and no mismatch error in the
detection path: every successful object-detection high-res run that touched
the image's renderer set ran its bounding-box network on OpenVINO, whatever
backend the priority search resolved; a failure can only come from a thrown
exception (e.g. the OpenVINO-format model file missing), which the top-level
handler catches, leaving the renderer set unchanged. -/
theorem C8_detection_forces_openvino (inp : RunInput) (o : Outcome)
    (hp : mget inp.md "problem" = "object_detection")
    (hr : mget inp.md "resolution" = "high")
    (hok : pixelClassifierRun inp = Except.ok o)
    (hreg : o.renderers ≠ inp.renderers) :
    o.bbEngine = some "OpenVINO" := by
  unfold pixelClassifierRun at hok
  by_cases hhr : hasRendererB inp.renderers (mget inp.md "model_name") = true
  · simp only [hhr, if_true] at hok
    obtain rfl := Except.ok.inj hok
    exact absurd rfl hreg
  · simp only [Bool.not_eq_true] at hhr
    simp only [hhr, Bool.false_eq_true, if_false] at hok
    split at hok
    · exact Except.noConfusion hok
    · obtain rfl := Except.ok.inj hok
      exact absurd rfl hreg
    · rename_i c ps hprep
      by_cases hie : ((selectOptimalIEcore (acceptedFormats inp.files inp.processName)
          inp.engines).2 == "") = true
      · simp only [hie, if_true] at hok
        obtain rfl := Except.ok.inj hok
        exact absurd rfl hreg
      · simp only [Bool.not_eq_true] at hie
        simp only [hie, Bool.false_eq_true, if_false] at hok
        split at hok
        · exact Except.noConfusion hok
        · split at hok
          · exact Except.noConfusion hok
          · split at hok
            · exact Except.noConfusion hok
            · split at hok
              · exact Except.noConfusion hok
              · split at hok
                · exact Except.noConfusion hok
                · rename_i pr2 hrs
                  obtain rfl := Except.ok.inj hok
                  exact rendererStage_detection inp _ pr2 hp hr hrs

theorem C8_witness : (pixelClassifier c8x).bbEngine = some "OpenVINO" :=
  C8_detection_forces_openvino c8x (pixelClassifier c8x) (by decide) (by decide) rfl (by decide)

/-- C9: saving writes the manifest `<root>/project.txt` with exactly one
`<uid>,<filepath>` line per image, but loading opens `<root>project.txt`
(line 141 concatenates without the separator), finds nothing, and yields an
empty project: save followed by load loses every image. -/
theorem C9_manifest_roundtrip_bug :
    fsRead (saveProject c9root c9imgs []) (c9root ++ "/project.txt") =
      some ["wsi1,/data/a.tiff"] ∧
    loadProject c9root (saveProject c9root c9imgs []) = [] :=
  ⟨by decide, by decide⟩

/-- With the load path matching the save path, the same save/load pair
round-trips the image set — the missing separator is the whole defect. -/
theorem loadProjectFixed_roundtrip :
    loadProjectFixed c9root (saveProject c9root c9imgs []) = c9imgs := by decide

/-- C10: `Project::getImage` returns the stored image for a present key; for
an absent key the C++ control flow falls off the end of the function, so the
total embedding returns the explicit absent value. -/
theorem C10_getImage_total :
    (∀ (imgs : List (String × WholeSlideImage)) (n : String) (w : WholeSlideImage),
      (imgs.map Prod.fst).Nodup → (n, w) ∈ imgs → getImage imgs n = some w) ∧
    (∀ (imgs : List (String × WholeSlideImage)) (n : String),
      (∀ w, (n, w) ∉ imgs) → getImage imgs n = none) := by
  constructor
  · intro imgs n w hnd hmem
    induction imgs with
    | nil => cases hmem
    | cons p ps ih =>
      rcases List.mem_cons.mp hmem with heq | hmem2
      · rw [← heq]
        simp [getImage, List.find?]
      · have htail : n ∈ ps.map Prod.fst := List.mem_map.mpr ⟨(n, w), hmem2, rfl⟩
        have hne : p.1 ≠ n := by
          intro hcon
          rw [List.map_cons, List.nodup_cons] at hnd
          exact hnd.1 (hcon ▸ htail)
        have hbe : (p.1 == n) = false := by simp [hne]
        simp only [getImage, List.find?, hbe]
        have hres := ih (by rw [List.map_cons, List.nodup_cons] at hnd; exact hnd.2) hmem2
        simpa [getImage] using hres
  · intro imgs n h
    induction imgs with
    | nil => simp [getImage, List.find?]
    | cons p ps ih =>
      have hne : (p.1 == n) = false := by
        by_contra hcon
        simp only [Bool.not_eq_false, beq_iff_eq] at hcon
        exact h p.2 (by rw [← hcon]; exact List.mem_cons_self p ps)
      simp only [getImage, List.find?, hne]
      have hres := ih (fun w hw => h w (List.mem_cons_of_mem p hw))
      simpa [getImage] using hres

theorem C10_witness :
    getImage c10imgs "a" = some (WholeSlideImage.mk "/x/a.tiff") ∧
    getImage c10imgs "b" = none := by
  constructor
  · exact C10_getImage_total.1 c10imgs "a" (WholeSlideImage.mk "/x/a.tiff") (by decide) (by decide)
  · exact C10_getImage_total.2 c10imgs "b" (by intro w hw; simp [c10imgs] at hw)

end FastPathology
